import Mathlib

/-
  Verification of the moderation state controller
  (frontend/src/hooks/useModeration.js) of the College_Media repository.

  The controller is a React hook managing six pieces of state
  (queue, appeals, filters, statistics, loading, error) and nine
  asynchronous dispatcher operations that call a remote moderation API,
  update the state, and report outcomes through a toast notification
  channel.  We embed it shallowly: the remote call's outcome (the resolved
  axios response body, or the thrown error) is an explicit input of each
  operation, state writes become a pure state transformer, and the
  notification channel plus the embedded queue re-fetches become an event
  trace.  React's setState calls within one operation are sequential, so
  an operation is a function from the outcome, its arguments and the
  pre-call state to a final state, an event list, and its return value
  (`none` models the `return null` of every catch block).
-/

namespace Moderation

/-- A flagged content item in the moderation queue; opaque to the
controller, which only stores whole snapshots. -/
structure QueueItem where
  id : String
  deriving DecidableEq, Repr

/-- An appeal of a prior moderation action; opaque to the controller. -/
structure Appeal where
  id : String
  deriving DecidableEq, Repr

/-- A backend-defined filter rule; opaque pass-through data. -/
structure FilterRule where
  raw : String
  deriving DecidableEq, Repr

/-- The AI analysis result returned by `moderationApi.analyze`; opaque. -/
structure AnalysisResult where
  raw : String
  deriving DecidableEq, Repr

/-- Aggregate moderation statistics (the fields read by the adapters). -/
structure Statistics where
  total : Nat
  pending : Nat
  resolved : Nat
  autoFlagged : Nat
  deriving DecidableEq, Repr

/-- The filters object held in state.  `setFilters` stores whatever object
the backend returned; the `useReports` adapter reads exactly the four
properties `status`, `contentType`, `reason`, `sortBy` off it, each of
which may be absent (the initial state is the empty object `\x7b\x7d`). -/
structure FiltersObj where
  status : Option String := none
  contentType : Option String := none
  reason : Option String := none
  sortBy : Option String := none
  deriving DecidableEq, Repr

/-- The six useState cells of the `useModeration` hook.  `loading` is the
spec's `busy` flag and `error` its `lastError`. -/
structure ModerationState where
  queue : List QueueItem
  appeals : List Appeal
  filters : FiltersObj
  statistics : Option Statistics
  loading : Bool
  error : Option String
  deriving DecidableEq, Repr

/-- The initial state of the hook: empty collections, not loading,
no error. -/
def initialState : ModerationState :=
  { queue := [], appeals := [], filters := {}, statistics := none,
    loading := false, error := none }

/-- A thrown JS error as observed by the catch blocks: `err?.message`
and, for submitAppeal, `err?.response?.data?.message`. -/
structure JsError where
  message : Option String := none
  responseDataMessage : Option String := none
  deriving DecidableEq, Repr

/-- The outcome of one awaited remote API call: the resolved response
body, or the error thrown into the catch block. -/
inductive RemoteOutcome (α : Type) where
  | success (body : α)
  | failure (err : JsError)
  deriving DecidableEq, Repr

/-- Observable side effects of an operation: toast notifications, and the
remote fetches issued by `fetchQueue` / `fetchFilters` (used to count
refresh invocations). -/
inductive Event where
  | notifySuccess (msg : String)
  | notifyFailure (msg : String)
  | queueFetch
  | filtersFetch
  deriving DecidableEq, Repr

/-- Result of running one dispatcher operation: the final state, the
emitted events in order, and the operation's return value (`none` for the
`return null` of a catch block). -/
structure OpOutcome (α : Type) where
  state : ModerationState
  events : List Event
  ret : Option α
  deriving DecidableEq, Repr

/-- True iff the event list contains a failure notification. -/
def hasFailureNotify (events : List Event) : Bool :=
  events.any fun e =>
    match e with
    | Event.notifyFailure _ => true
    | _ => false

/-- Number of queue fetches (invocations of `moderationApi.getQueue`)
recorded in an event list. -/
def queueFetchCount (events : List Event) : Nat :=
  (events.filter (fun e => e == Event.queueFetch)).length

/-- The loosely-typed options object accepted by `fetchQueue`.  The source
reads `status`, `page`, `limit`, `category`, `priority`; a caller may also
supply date-range fields, which we model so that their handling (or lack
of it) can be stated. -/
structure QueueOptions where
  status : Option String := none
  page : Option Nat := none
  limit : Option Nat := none
  category : Option String := none
  priority : Option String := none
  startDate : Option String := none
  endDate : Option String := none
  deriving DecidableEq, Repr

/-- JS truthiness of a possibly-absent string: absent, or the empty
string, is falsy. -/
def strTruthy : Option String → Bool
  | none => false
  | some s => s != ""

/-- JS truthiness of a possibly-absent number: absent, or zero, is
falsy. -/
def natTruthy : Option Nat → Bool
  | none => false
  | some n => n != 0

/-- The URLSearchParams built by `fetchQueue`: each of the five handled
fields is appended exactly when its value is truthy
(`if (options.status) params.append("status", options.status)` and so
on).  Date-range fields are never appended. -/
def buildQueueParams (o : QueueOptions) : List (String × String) :=
  (if strTruthy o.status then [("status", o.status.getD "")] else []) ++
  (if natTruthy o.page then [("page", toString (o.page.getD 0))] else []) ++
  (if natTruthy o.limit then [("limit", toString (o.limit.getD 0))] else []) ++
  (if strTruthy o.category then [("category", o.category.getD "")] else []) ++
  (if strTruthy o.priority then [("priority", o.priority.getD "")] else [])

/-- Whether the built query contains a field of the given name. -/
def queryHasField (params : List (String × String)) (key : String) : Bool :=
  (params.lookup key).isSome

/-- The `data` envelope of a getQueue response body
(`response.data.data`), whose `items` field may be absent. -/
structure QueueEnvelope where
  items : Option (List QueueItem) := none
  deriving DecidableEq, Repr

/-- The getQueue response body (`response.data`); the envelope itself may
be absent. -/
structure QueueBody where
  data : Option QueueEnvelope := none
  deriving DecidableEq, Repr

/-- State after `fetchQueue`'s synchronous prologue, i.e. the state in
force when `moderationApi.getQueue` is invoked:
`setLoading(true); setError(null)`. -/
def fetchQueuePre (s : ModerationState) : ModerationState :=
  { s with loading := true, error := none }

/-- State after the synchronous prologue of every other operation, which
is only `setLoading(true)` (no `setError` call). -/
def startLoading (s : ModerationState) : ModerationState :=
  { s with loading := true }

/-- The `fetchQueue` operation.  On success it replaces `queue` with
`response?.data?.data?.items || []` and returns `response.data`; in the
catch block it sets `error` to `err?.message || "Unknown error"`, toasts
a failure, and returns null; `finally` clears `loading`. -/
def fetchQueue (remote : RemoteOutcome QueueBody) (options : QueueOptions)
    (s : ModerationState) : OpOutcome QueueBody :=
  let s1 := fetchQueuePre s
  let _params := buildQueueParams options
  match remote with
  | RemoteOutcome.success body =>
      { state := { s1 with
          queue := (body.data.bind QueueEnvelope.items).getD [],
          loading := false }
        events := [Event.queueFetch]
        ret := some body }
  | RemoteOutcome.failure err =>
      { state := { s1 with
          error := some (err.message.getD "Unknown error"),
          loading := false }
        events := [Event.queueFetch,
          Event.notifyFailure "Failed to fetch moderation queue"]
        ret := none }

/-- The analyze response body; `response?.data?.data` may be absent. -/
structure AnalyzeBody where
  data : Option AnalysisResult := none
  deriving DecidableEq, Repr

/-- The `analyzeContent` operation: returns `response?.data?.data` on
success, writes no collection, and on failure only toasts
"Content analysis failed" and returns null. -/
def analyzeContent (remote : RemoteOutcome AnalyzeBody) (content : String)
    (s : ModerationState) : OpOutcome (Option AnalysisResult) :=
  let s1 := startLoading s
  match remote with
  | RemoteOutcome.success body =>
      { state := { s1 with loading := false }
        events := []
        ret := some body.data }
  | RemoteOutcome.failure _ =>
      { state := { s1 with loading := false }
        events := [Event.notifyFailure "Content analysis failed"]
        ret := none }

/-- The takeAction response body (`response.data`), opaque to the
controller. -/
structure ActionBody where
  raw : String := ""
  deriving DecidableEq, Repr

/-- The `takeAction` operation.  On success it toasts
`Action "<action>" completed`, then awaits an embedded `fetchQueue()`
refresh (whose own remote outcome is `refreshRemote` and whose options
are the defaults), and returns `response.data`; on failure it toasts
"Failed to take action" and returns null, with no refresh. -/
def takeAction (remote : RemoteOutcome ActionBody)
    (refreshRemote : RemoteOutcome QueueBody)
    (queueItemId : String) (action : String) (reason : String)
    (notes : String) (s : ModerationState) : OpOutcome ActionBody :=
  let s1 := startLoading s
  match remote with
  | RemoteOutcome.success body =>
      let refreshed := fetchQueue refreshRemote {} s1
      { state := { refreshed.state with loading := false }
        events := Event.notifySuccess
            ("Action \"" ++ action ++ "\" completed") :: refreshed.events
        ret := some body }
  | RemoteOutcome.failure _ =>
      { state := { s1 with loading := false }
        events := [Event.notifyFailure "Failed to take action"]
        ret := none }

/-- One entry of a bulk-action response list; `r?.success` guards a
possibly-null entry. -/
structure BulkItem where
  success : Bool
  deriving DecidableEq, Repr

/-- The `data` field of a bulkAction response body: an array of per-item
results, or some truthy non-array value. -/
inductive BulkPayload where
  | arr (results : List (Option BulkItem))
  | nonArrayValue
  deriving DecidableEq, Repr

/-- The bulkAction response body; its `data` may also be absent/null. -/
structure BulkBody where
  data : Option BulkPayload := none
  deriving DecidableEq, Repr

/-- The success count of a bulk response:
`const list = response?.data?.data || [];`
`Array.isArray(list) ? list.filter((r) => r?.success).length : 0`. -/
def bulkSuccessCount (payload : Option BulkPayload) : Nat :=
  match payload.getD (BulkPayload.arr []) with
  | BulkPayload.arr results =>
      (results.filter (fun r => (r.map BulkItem.success).getD false)).length
  | BulkPayload.nonArrayValue => 0

/-- The `bulkAction` operation.  On success it computes the success
count, toasts `Bulk action completed: <count>/<total> items`, awaits an
embedded `fetchQueue()` refresh, and returns `response.data`; on failure
it toasts "Bulk action failed" and returns null, with no refresh. -/
def bulkAction (remote : RemoteOutcome BulkBody)
    (refreshRemote : RemoteOutcome QueueBody)
    (itemIds : List String) (action : String) (reason : String)
    (s : ModerationState) : OpOutcome BulkBody :=
  let s1 := startLoading s
  match remote with
  | RemoteOutcome.success body =>
      let successCount := bulkSuccessCount body.data
      let msg := "Bulk action completed: " ++ toString successCount ++ "/" ++
        toString itemIds.length ++ " items"
      let refreshed := fetchQueue refreshRemote {} s1
      { state := { refreshed.state with loading := false }
        events := Event.notifySuccess msg :: refreshed.events
        ret := some body }
  | RemoteOutcome.failure _ =>
      { state := { s1 with loading := false }
        events := [Event.notifyFailure "Bulk action failed"]
        ret := none }

/-- The `data` envelope of a getAppeals response, whose `appeals` field
may be absent. -/
structure AppealsEnvelope where
  appeals : Option (List Appeal) := none
  deriving DecidableEq, Repr

/-- The getAppeals response body. -/
structure AppealsBody where
  data : Option AppealsEnvelope := none
  deriving DecidableEq, Repr

/-- The `fetchAppeals` operation: replaces `appeals` with
`response?.data?.data?.appeals || []` on success; on failure only toasts
and returns null.  (Its options object is passed through to the remote
service verbatim and affects nothing else, so it is absorbed into the
remote outcome.) -/
def fetchAppeals (remote : RemoteOutcome AppealsBody)
    (s : ModerationState) : OpOutcome AppealsBody :=
  let s1 := startLoading s
  match remote with
  | RemoteOutcome.success body =>
      { state := { s1 with
          appeals := (body.data.bind AppealsEnvelope.appeals).getD [],
          loading := false }
        events := []
        ret := some body }
  | RemoteOutcome.failure _ =>
      { state := { s1 with loading := false }
        events := [Event.notifyFailure "Failed to fetch appeals"]
        ret := none }

/-- The submitAppeal response body (`response.data`), opaque. -/
structure AppealBody where
  raw : String := ""
  deriving DecidableEq, Repr

/-- The `submitAppeal` operation: on success toasts
"Appeal submitted successfully" and returns `response.data`; on failure
toasts `err?.response?.data?.message || "Failed to submit appeal"` and
returns null.  No collection or error write on either path. -/
def submitAppeal (remote : RemoteOutcome AppealBody)
    (actionId : String) (reason : String) (evidence : List String)
    (s : ModerationState) : OpOutcome AppealBody :=
  let s1 := startLoading s
  match remote with
  | RemoteOutcome.success body =>
      { state := { s1 with loading := false }
        events := [Event.notifySuccess "Appeal submitted successfully"]
        ret := some body }
  | RemoteOutcome.failure err =>
      { state := { s1 with loading := false }
        events := [Event.notifyFailure
          (err.responseDataMessage.getD "Failed to submit appeal")]
        ret := none }

/-- The getFilters response body; `response?.data?.data || \x7b\x7d`
defaults to the empty object. -/
structure FiltersBody where
  data : Option FiltersObj := none
  deriving DecidableEq, Repr

/-- The `fetchFilters` operation: replaces `filters` with
`response?.data?.data || \x7b\x7d` on success; on failure only toasts and
returns null.  It never writes `error`. -/
def fetchFilters (remote : RemoteOutcome FiltersBody)
    (s : ModerationState) : OpOutcome FiltersBody :=
  let s1 := startLoading s
  match remote with
  | RemoteOutcome.success body =>
      { state := { s1 with filters := body.data.getD {}, loading := false }
        events := [Event.filtersFetch]
        ret := some body }
  | RemoteOutcome.failure _ =>
      { state := { s1 with loading := false }
        events := [Event.filtersFetch,
          Event.notifyFailure "Failed to fetch filters"]
        ret := none }

/-- The createFilter response body (`response.data`), opaque. -/
structure FilterBody where
  data : Option FilterRule := none
  deriving DecidableEq, Repr

/-- The `createFilter` operation: on success toasts
"Filter created successfully", awaits an embedded `fetchFilters()`
refresh, and returns `response.data`; on failure toasts and returns
null with no refresh. -/
def createFilter (remote : RemoteOutcome FilterBody)
    (refreshRemote : RemoteOutcome FiltersBody)
    (filterData : FilterRule) (s : ModerationState) : OpOutcome FilterBody :=
  let s1 := startLoading s
  match remote with
  | RemoteOutcome.success body =>
      let refreshed := fetchFilters refreshRemote s1
      { state := { refreshed.state with loading := false }
        events := Event.notifySuccess "Filter created successfully" ::
          refreshed.events
        ret := some body }
  | RemoteOutcome.failure _ =>
      { state := { s1 with loading := false }
        events := [Event.notifyFailure "Failed to create filter"]
        ret := none }

/-- The getStatistics response body; `response?.data?.data || null`. -/
structure StatsBody where
  data : Option Statistics := none
  deriving DecidableEq, Repr

/-- The `fetchStatistics` operation: replaces `statistics` with
`response?.data?.data || null` on success; on failure only toasts and
returns null. -/
def fetchStatistics (remote : RemoteOutcome StatsBody)
    (startDate endDate : Option String)
    (s : ModerationState) : OpOutcome StatsBody :=
  let s1 := startLoading s
  match remote with
  | RemoteOutcome.success body =>
      { state := { s1 with statistics := body.data, loading := false }
        events := []
        ret := some body }
  | RemoteOutcome.failure _ =>
      { state := { s1 with loading := false }
        events := [Event.notifyFailure "Failed to fetch statistics"]
        ret := none }

/-- The four string fields the `useReports` adapter exposes, each
defaulted when absent upstream. -/
structure AdapterFilters where
  status : String
  contentType : String
  reason : String
  sortBy : String
  deriving DecidableEq, Repr

/-- The pagination object of the `useReports` adapter. -/
structure Pagination where
  hasMore : Bool
  deriving DecidableEq, Repr

/-- The view exposed by the `useReports` adapter. -/
structure ReportsView where
  reports : List QueueItem
  loading : Bool
  filters : AdapterFilters
  pagination : Pagination
  deriving DecidableEq, Repr

/-- The `useReports` compatibility adapter: `reports` is the queue,
each filter field falls back to `"all"` (or `"recent"` for `sortBy`)
via `??`, and `pagination` is hardcoded to `hasMore: false`. -/
def useReports (s : ModerationState) : ReportsView :=
  { reports := s.queue
    loading := s.loading
    filters :=
      { status := s.filters.status.getD "all"
        contentType := s.filters.contentType.getD "all"
        reason := s.filters.reason.getD "all"
        sortBy := s.filters.sortBy.getD "recent" }
    pagination := { hasMore := false } }

/-- The adapter's `applyFilters(nextFilters)`: the body only binds its
argument to an unused local, so it is the identity on the hook state. -/
def applyFilters (nextFilters : FiltersObj) (s : ModerationState) :
    ModerationState :=
  s

/-- The adapter's `clearFilters()`: an explicit no-op on the hook
state. -/
def clearFilters (s : ModerationState) : ModerationState :=
  s

/-- Claim C2: after every successful fetchQueue call, `queue` equals the
`items` sequence nested under the response's `data` envelope when that
field is present, the empty sequence when the envelope or the field is
absent, and in all cases is independent of the pre-call queue. -/
theorem fetchQueue_success_replaces_queue (l : List QueueItem)
    (opts : QueueOptions) (s t : ModerationState) :
    (fetchQueue (RemoteOutcome.success { data := some { items := some l } })
        opts s).state.queue = l ∧
    (fetchQueue (RemoteOutcome.success { data := some { items := none } })
        opts s).state.queue = [] ∧
    (fetchQueue (RemoteOutcome.success { data := none })
        opts s).state.queue = [] ∧
    ∀ body : QueueBody,
      (fetchQueue (RemoteOutcome.success body) opts s).state.queue =
        (fetchQueue (RemoteOutcome.success body) opts t).state.queue :=
  ⟨rfl, rfl, rfl, fun _ => rfl⟩

/-- Claim C3: every failed fetchQueue call leaves `queue` unchanged from
its pre-call value, ends with `loading` false, and sets `error` to a
non-absent message. -/
theorem fetchQueue_failure_stale_queue (err : JsError)
    (opts : QueueOptions) (s : ModerationState) :
    (fetchQueue (RemoteOutcome.failure err) opts s).state.queue = s.queue ∧
    (fetchQueue (RemoteOutcome.failure err) opts s).state.loading = false ∧
    ((fetchQueue (RemoteOutcome.failure err) opts s).state.error).isSome
      = true :=
  ⟨rfl, rfl, rfl⟩

/-- Claim C6: a failed takeAction invokes no queue fetch, and a
successful takeAction invokes exactly one queue fetch before
returning. -/
theorem takeAction_refresh_policy (err : JsError) (body : ActionBody)
    (refreshRemote : RemoteOutcome QueueBody)
    (queueItemId action reason notes : String) (s : ModerationState) :
    queueFetchCount (takeAction (RemoteOutcome.failure err) refreshRemote
        queueItemId action reason notes s).events = 0 ∧
    queueFetchCount (takeAction (RemoteOutcome.success body) refreshRemote
        queueItemId action reason notes s).events = 1 :=
  ⟨rfl, by cases refreshRemote <;> rfl⟩

/-- Claim C8: the useReports adapter, over a state whose upstream filters
object is exactly `\x7bstatus: "pending"\x7d`, reports
`filters.status = "pending"` and `filters.contentType = "all"`;
`pagination.hasMore` is false in every state; and `applyFilters` (with
any argument, in particular `\x7bstatus: "resolved"\x7d`) and
`clearFilters` change neither `reports` nor `filters`. -/
theorem useReports_contract (s : ModerationState) (next : FiltersObj) :
    (useReports
        { s with filters := { status := some "pending" } }).filters.status
      = "pending" ∧
    (useReports
        { s with filters := { status := some "pending" } }).filters.contentType
      = "all" ∧
    (useReports s).pagination.hasMore = false ∧
    (useReports (applyFilters next s)).reports = (useReports s).reports ∧
    (useReports (applyFilters next s)).filters = (useReports s).filters ∧
    (useReports (clearFilters s)).reports = (useReports s).reports ∧
    (useReports (clearFilters s)).filters = (useReports s).filters :=
  ⟨rfl, rfl, rfl, rfl, rfl, rfl, rfl⟩

/-- Claim C9: every dispatcher operation absorbs a remote-call failure at
its boundary: the catch block returns null to the caller, so the
operation's return value is `none` on every failure. -/
theorem dispatcher_failure_returns_none (err : JsError)
    (opts : QueueOptions) (rr : RemoteOutcome QueueBody)
    (fro : RemoteOutcome FiltersBody) (content : String)
    (queueItemId action reason notes : String) (itemIds : List String)
    (actionId : String) (evidence : List String) (fd : FilterRule)
    (sd ed : Option String) (s : ModerationState) :
    (fetchQueue (RemoteOutcome.failure err) opts s).ret = none ∧
    (analyzeContent (RemoteOutcome.failure err) content s).ret = none ∧
    (takeAction (RemoteOutcome.failure err) rr queueItemId action reason
        notes s).ret = none ∧
    (bulkAction (RemoteOutcome.failure err) rr itemIds action reason
        s).ret = none ∧
    (fetchAppeals (RemoteOutcome.failure err) s).ret = none ∧
    (submitAppeal (RemoteOutcome.failure err) actionId reason evidence
        s).ret = none ∧
    (fetchFilters (RemoteOutcome.failure err) s).ret = none ∧
    (createFilter (RemoteOutcome.failure err) fro fd s).ret = none ∧
    (fetchStatistics (RemoteOutcome.failure err) sd ed s).ret = none :=
  ⟨rfl, rfl, rfl, rfl, rfl, rfl, rfl, rfl, rfl⟩

/-- The bulk response body `\x7bdata: [\x7bsuccess:true\x7d,
\x7bsuccess:false\x7d, \x7bsuccess:true\x7d]\x7d` of claim C4. -/
def bulkThreeBody : BulkBody :=
  { data := some (BulkPayload.arr
      [some { success := true }, some { success := false },
       some { success := true }]) }

/-- Claim C4: for a bulkAction on three ids whose response data is
`[\x7bsuccess:true\x7d, \x7bsuccess:false\x7d, \x7bsuccess:true\x7d]`,
the first emitted event is the success notification reporting the ratio
2/3, and exactly one queue fetch is invoked, after that notification. -/
theorem bulkAction_reports_two_of_three (i1 i2 i3 action reason : String)
    (refreshRemote : RemoteOutcome QueueBody) (s : ModerationState) :
    (bulkAction (RemoteOutcome.success bulkThreeBody) refreshRemote
        [i1, i2, i3] action reason s).events.head?
      = some (Event.notifySuccess "Bulk action completed: 2/3 items") ∧
    queueFetchCount (bulkAction (RemoteOutcome.success bulkThreeBody)
        refreshRemote [i1, i2, i3] action reason s).events = 1 ∧
    queueFetchCount ((bulkAction (RemoteOutcome.success bulkThreeBody)
        refreshRemote [i1, i2, i3] action reason s).events.tail) = 1 := by
  refine ⟨?_, by cases refreshRemote <;> rfl, by cases refreshRemote <;> rfl⟩
  show some (Event.notifySuccess ("Bulk action completed: " ++
      toString (bulkSuccessCount bulkThreeBody.data) ++ "/" ++
      toString ([i1, i2, i3] : List String).length ++ " items")) = _
  rw [show ([i1, i2, i3] : List String).length = 3 from rfl]
  rfl

/-- Claim C5: when the bulkAction response data is missing/null or not an
array, the success count resolves to 0, the operation still completes
(its return value is present, so no fault escaped the counting step),
the success notification is still issued first, and the queue refresh
still occurs. -/
theorem bulkAction_tolerates_non_list (itemIds : List String)
    (action reason : String) (refreshRemote : RemoteOutcome QueueBody)
    (s : ModerationState) :
    bulkSuccessCount none = 0 ∧
    bulkSuccessCount (some BulkPayload.nonArrayValue) = 0 ∧
    (bulkAction (RemoteOutcome.success { data := none }) refreshRemote
        itemIds action reason s).events.head?
      = some (Event.notifySuccess ("Bulk action completed: 0/" ++
          toString itemIds.length ++ " items")) ∧
    (bulkAction (RemoteOutcome.success { data := some BulkPayload.nonArrayValue })
        refreshRemote itemIds action reason s).events.head?
      = some (Event.notifySuccess ("Bulk action completed: 0/" ++
          toString itemIds.length ++ " items")) ∧
    queueFetchCount (bulkAction (RemoteOutcome.success { data := none })
        refreshRemote itemIds action reason s).events = 1 ∧
    queueFetchCount (bulkAction
        (RemoteOutcome.success { data := some BulkPayload.nonArrayValue })
        refreshRemote itemIds action reason s).events = 1 ∧
    ((bulkAction (RemoteOutcome.success { data := none }) refreshRemote
        itemIds action reason s).ret).isSome = true ∧
    ((bulkAction (RemoteOutcome.success { data := some BulkPayload.nonArrayValue })
        refreshRemote itemIds action reason s).ret).isSome = true :=
  ⟨rfl, rfl, by rfl, by rfl, by cases refreshRemote <;> rfl,
   by cases refreshRemote <;> rfl, rfl, rfl⟩

/-- A state carrying a prior error, on which claim C1 fails. -/
def erroredState : ModerationState :=
  { initialState with error := some "previous failure" }

/-- Claim C1 is false as stated: analyzeContent neither clears the prior
`error` before invoking the remote service (it is still
"previous failure" at the call) nor sets `error` on failure (starting
from no error, a failed analyzeContent still ends with no error). -/
theorem analyzeContent_error_counterexample :
    (startLoading erroredState).error = some "previous failure" ∧
    (analyzeContent (RemoteOutcome.failure {}) "some post"
        initialState).state.error = none :=
  ⟨rfl, rfl⟩

/-- Claim C1 (amended): every dispatcher operation sets `loading` true
before invoking the remote service, ends with `loading` false on both
the success and the failure path, and issues a failure notification on
failure; fetchQueue alone additionally clears the prior `error` before
its remote call and sets `error` on failure. -/
theorem dispatcher_busy_error_discipline (s : ModerationState)
    (err : JsError) (opts : QueueOptions)
    (qr rr : RemoteOutcome QueueBody) (ar : RemoteOutcome AnalyzeBody)
    (tr : RemoteOutcome ActionBody) (br : RemoteOutcome BulkBody)
    (apr : RemoteOutcome AppealsBody) (sar : RemoteOutcome AppealBody)
    (fr fro : RemoteOutcome FiltersBody) (cfr : RemoteOutcome FilterBody)
    (srr : RemoteOutcome StatsBody) (content : String)
    (queueItemId action reason notes : String) (itemIds : List String)
    (actionId : String) (evidence : List String) (fd : FilterRule)
    (sd ed : Option String) :
    ((fetchQueuePre s).loading = true ∧ (fetchQueuePre s).error = none ∧
      (fetchQueue qr opts s).state.loading = false ∧
      ((fetchQueue (RemoteOutcome.failure err) opts s).state.error).isSome
        = true ∧
      hasFailureNotify
        (fetchQueue (RemoteOutcome.failure err) opts s).events = true) ∧
    ((startLoading s).loading = true) ∧
    ((analyzeContent ar content s).state.loading = false ∧
      hasFailureNotify
        (analyzeContent (RemoteOutcome.failure err) content s).events
        = true) ∧
    ((takeAction tr rr queueItemId action reason notes s).state.loading
        = false ∧
      hasFailureNotify (takeAction (RemoteOutcome.failure err) rr
        queueItemId action reason notes s).events = true) ∧
    ((bulkAction br rr itemIds action reason s).state.loading = false ∧
      hasFailureNotify (bulkAction (RemoteOutcome.failure err) rr
        itemIds action reason s).events = true) ∧
    ((fetchAppeals apr s).state.loading = false ∧
      hasFailureNotify
        (fetchAppeals (RemoteOutcome.failure err) s).events = true) ∧
    ((submitAppeal sar actionId reason evidence s).state.loading = false ∧
      hasFailureNotify (submitAppeal (RemoteOutcome.failure err)
        actionId reason evidence s).events = true) ∧
    ((fetchFilters fr s).state.loading = false ∧
      hasFailureNotify
        (fetchFilters (RemoteOutcome.failure err) s).events = true) ∧
    ((createFilter cfr fro fd s).state.loading = false ∧
      hasFailureNotify
        (createFilter (RemoteOutcome.failure err) fro fd s).events
        = true) ∧
    ((fetchStatistics srr sd ed s).state.loading = false ∧
      hasFailureNotify
        (fetchStatistics (RemoteOutcome.failure err) sd ed s).events
        = true) :=
  ⟨⟨rfl, rfl, by cases qr <;> rfl, rfl, rfl⟩,
   rfl,
   ⟨by cases ar <;> rfl, rfl⟩,
   ⟨by cases tr <;> rfl, rfl⟩,
   ⟨by cases br <;> rfl, rfl⟩,
   ⟨by cases apr <;> rfl, rfl⟩,
   ⟨by cases sar <;> rfl, rfl⟩,
   ⟨by cases fr <;> rfl, rfl⟩,
   ⟨by cases cfr <;> rfl, rfl⟩,
   ⟨by cases srr <;> rfl, rfl⟩⟩

/-- Claim C7 is false as stated: a date-range field present in the
options is never carried into the query (fetchQueue never appends it),
and a present-but-falsy field (page = 0) is also omitted, so presence in
the options does not coincide with presence in the query. -/
theorem buildQueueParams_counterexample :
    queryHasField
        (buildQueueParams { startDate := some "2024-01-01" }) "startDate"
      = false ∧
    ({ startDate := some "2024-01-01" } : QueueOptions).startDate.isSome
      = true ∧
    queryHasField (buildQueueParams { page := some 0 }) "page" = false ∧
    ({ page := some 0 } : QueueOptions).page.isSome = true :=
  ⟨rfl, rfl, rfl, rfl⟩

/-- Claim C7 (amended): the normalized query contains exactly the fields
among status, page, limit, category and priority whose option values are
present and truthy (non-empty string, non-zero number); date-range
fields are never included, and no other field ever appears. -/
theorem buildQueueParams_truthy_fields (o : QueueOptions) :
    queryHasField (buildQueueParams o) "status" = strTruthy o.status ∧
    queryHasField (buildQueueParams o) "page" = natTruthy o.page ∧
    queryHasField (buildQueueParams o) "limit" = natTruthy o.limit ∧
    queryHasField (buildQueueParams o) "category" = strTruthy o.category ∧
    queryHasField (buildQueueParams o) "priority" = strTruthy o.priority ∧
    queryHasField (buildQueueParams o) "startDate" = false ∧
    queryHasField (buildQueueParams o) "endDate" = false ∧
    ((buildQueueParams o).all fun p =>
      ["status", "page", "limit", "category", "priority"].contains p.1)
      = true := by
  cases hs : strTruthy o.status <;> cases hp : natTruthy o.page <;>
    cases hl : natTruthy o.limit <;> cases hc : strTruthy o.category <;>
    cases hq : strTruthy o.priority <;>
    simp [buildQueueParams, queryHasField, hs, hp, hl, hc, hq, List.lookup]

/-- Claim C10 is false as stated: a successful takeAction whose embedded
fetchQueue refresh fails does modify `error` — it sets it to the
refresh's failure message rather than clearing it.  Starting from the
initial state (no error), the post-state error is "Unknown error". -/
theorem takeAction_refresh_failure_sets_error :
    initialState.error = none ∧
    (takeAction (RemoteOutcome.success { raw := "ok" })
        (RemoteOutcome.failure {}) "item1" "approve" "spam" ""
        initialState).state.error = some "Unknown error" :=
  ⟨rfl, rfl⟩

/-- Claim C10 (amended): only fetchQueue writes `error` directly.  Every
other dispatcher operation leaves `error` unchanged on its own
remote-call failure, and also on success when it embeds no fetchQueue
refresh (analyzeContent, fetchAppeals, submitAppeal, fetchFilters,
fetchStatistics, and createFilter, whose fetchFilters refresh never
writes `error`).  A successful takeAction or bulkAction changes `error`
only through its embedded fetchQueue refresh, which clears it when the
refresh succeeds and sets it to the refresh's failure message when the
refresh fails. -/
theorem lastError_frame_condition (err rerr : JsError)
    (s : ModerationState) (content : String)
    (queueItemId action reason notes actionId : String)
    (itemIds evidence : List String) (fd : FilterRule)
    (sd ed : Option String) (rr : RemoteOutcome QueueBody)
    (fro : RemoteOutcome FiltersBody) (ab : AnalyzeBody) (tb : ActionBody)
    (bb : BulkBody) (apb : AppealsBody) (sab : AppealBody)
    (fb : FiltersBody) (cfb : FilterBody) (stb : StatsBody)
    (qb : QueueBody) :
    (analyzeContent (RemoteOutcome.failure err) content s).state.error
      = s.error ∧
    (takeAction (RemoteOutcome.failure err) rr queueItemId action reason
        notes s).state.error = s.error ∧
    (bulkAction (RemoteOutcome.failure err) rr itemIds action reason
        s).state.error = s.error ∧
    (fetchAppeals (RemoteOutcome.failure err) s).state.error = s.error ∧
    (submitAppeal (RemoteOutcome.failure err) actionId reason evidence
        s).state.error = s.error ∧
    (fetchFilters (RemoteOutcome.failure err) s).state.error = s.error ∧
    (createFilter (RemoteOutcome.failure err) fro fd s).state.error
      = s.error ∧
    (fetchStatistics (RemoteOutcome.failure err) sd ed s).state.error
      = s.error ∧
    (analyzeContent (RemoteOutcome.success ab) content s).state.error
      = s.error ∧
    (fetchAppeals (RemoteOutcome.success apb) s).state.error = s.error ∧
    (submitAppeal (RemoteOutcome.success sab) actionId reason evidence
        s).state.error = s.error ∧
    (fetchFilters (RemoteOutcome.success fb) s).state.error = s.error ∧
    (fetchStatistics (RemoteOutcome.success stb) sd ed s).state.error
      = s.error ∧
    (createFilter (RemoteOutcome.success cfb) fro fd s).state.error
      = s.error ∧
    (takeAction (RemoteOutcome.success tb) (RemoteOutcome.success qb)
        queueItemId action reason notes s).state.error = none ∧
    (takeAction (RemoteOutcome.success tb) (RemoteOutcome.failure rerr)
        queueItemId action reason notes s).state.error
      = some (rerr.message.getD "Unknown error") ∧
    (bulkAction (RemoteOutcome.success bb) (RemoteOutcome.success qb)
        itemIds action reason s).state.error = none ∧
    (bulkAction (RemoteOutcome.success bb) (RemoteOutcome.failure rerr)
        itemIds action reason s).state.error
      = some (rerr.message.getD "Unknown error") :=
  ⟨rfl, rfl, rfl, rfl, rfl, rfl, rfl, rfl, rfl, rfl, rfl, rfl, rfl,
   by cases fro <;> rfl, rfl, rfl, rfl, rfl⟩

end Moderation
